import Mathlib

/-!
# Verification of the PDF renderer (`src/backend/pdf_render.js`)

A shallow embedding of the command-line PDF renderer.  The script drives a
headless browser: it validates that the input HTML file exists, launches the
browser, loads the HTML as page content (waiting for network idle), waits for
`document.fonts.ready`, waits a fixed 2000 ms settle delay, captures an A4 PDF
with fixed margins, and closes the browser in a `finally` block.  The
command-line wrapper checks for exactly two positional arguments and maps the
returned promise to exit code 0 (resolved) or 1 (rejected).

The embedding makes every external effect explicit through a `World` oracle
(filesystem existence, environment variable, and the success or failure of
each awaited browser-automation call) and records the sequence of observable
actions as a trace of `Event`s.  `process.exit(n)` in Node terminates the
process immediately: code after it, including `finally` blocks of enclosing
`try` statements, does not run.  The embedding models this with the
`GenOutcome.exited` outcome, which bypasses the `finally` close.
-/

namespace PdfRender

/-- Margin option object passed to `page.pdf` in the source. -/
structure Margin where
  top : String
  bottom : String
  left : String
  right : String
deriving DecidableEq, Repr

/-- Options object passed to `page.pdf` in the source. -/
structure PdfOptions where
  path : String
  format : String
  printBackground : Bool
  margin : Margin
deriving DecidableEq, Repr

/-- The literal options object built at the `page.pdf` call site:
`{path: outputPath, format: 'A4', printBackground: true,
  margin: {top: '10mm', bottom: '15mm', left: '10mm', right: '10mm'}}`. -/
def pdfRenderOptions (outputPath : String) : PdfOptions :=
  { path := outputPath
    format := "A4"
    printBackground := true
    margin := { top := "10mm", bottom := "15mm", left := "10mm", right := "10mm" } }

/-- Observable actions of one invocation, in program order. -/
inductive Event where
  /-- `console.log` line (standard output). -/
  | log (msg : String)
  /-- `console.error` line (standard error). -/
  | errLog (msg : String)
  /-- `puppeteer.launch` invoked with the resolved `executablePath`. -/
  | launchCall (execPath : String)
  /-- `fs.readFileSync(htmlPath, 'utf8')` invoked. -/
  | readFile (path : String) (encoding : String)
  /-- `page.setContent(html, {waitUntil})` invoked. -/
  | setContent (waitUntil : String)
  /-- `page.evaluate(() => document.fonts.ready)` invoked. -/
  | waitFonts
  /-- `page.waitForTimeout(ms)` invoked. -/
  | waitDelay (ms : Nat)
  /-- `page.pdf(opts)` invoked. -/
  | pdfCapture (opts : PdfOptions)
  /-- a file was created or overwritten at `path` (successful `page.pdf`). -/
  | fileWrite (path : String)
  /-- `browser.close()` completed. -/
  | browserClosed
deriving DecidableEq, Repr

/-- Environment oracle: filesystem, environment variable, and the outcome of
each awaited call in the pipeline (success, or the thrown error's message). -/
structure World where
  /-- `fs.existsSync` -/
  fileExists : String → Bool
  /-- `process.env.PUPPETEER_EXECUTABLE_PATH` (`none` = unset) -/
  env : Option String
  /-- `puppeteer.executablePath()` -/
  bundledExec : String
  /-- outcome of `puppeteer.launch(...)` -/
  launch : Except String Unit
  /-- outcome of `browser.newPage()` -/
  newPage : Except String Unit
  /-- outcome of `fs.readFileSync(htmlPath, 'utf8')` -/
  readFile : Except String String
  /-- outcome of `page.setContent(...)` -/
  setContent : Except String Unit
  /-- outcome of `page.evaluate(() => document.fonts.ready)` -/
  fontsReady : Except String Unit
  /-- outcome of `page.waitForTimeout(2000)` -/
  waitTimeout : Except String Unit
  /-- outcome of `page.pdf(...)` -/
  pdfCapture : Except String Unit
  /-- outcome of `browser.close()` -/
  closeB : Except String Unit

/-- `process.env.PUPPETEER_EXECUTABLE_PATH || puppeteer.executablePath()`:
JavaScript `||` takes the right operand when the left is absent or the empty
string (both falsy). -/
def resolveExecPath (env : Option String) (bundled : String) : String :=
  match env with
  | some s => if s = "" then bundled else s
  | none => bundled

/-- How the `generatePDF` promise concludes. -/
inductive GenOutcome where
  /-- `process.exit(code)` was called inside `generatePDF`: the process
  terminates at once (skipping any pending `finally`). -/
  | exited (code : Nat)
  /-- the promise resolved. -/
  | resolved
  /-- the promise rejected with the given error message. -/
  | rejected (msg : String)
deriving DecidableEq, Repr

/-- The three `console.log` lines at the top of `generatePDF`. -/
def preamble (htmlPath outputPath : String) : List Event :=
  [Event.log "Starting PDF generation...",
   Event.log ("HTML: " ++ htmlPath),
   Event.log ("Output: " ++ outputPath)]

/-- Shallow embedding of `generatePDF(htmlPath, outputPath)`.  Returns the
event trace and how the call concludes.  Each `match` on a `World` field is
the `await` of the corresponding call; an `error` branch is the thrown error
reaching the `catch` block, which logs and calls `process.exit(1)` —
terminating the process before the `finally` block can close the browser.
Only when the `try` body completes does the `finally` run `browser.close()`;
if that throws, the promise rejects. -/
def generatePDF (w : World) (htmlPath outputPath : String) :
    List Event × GenOutcome :=
  let pre := preamble htmlPath outputPath
  if w.fileExists htmlPath then
    let t1 := pre ++ [Event.launchCall (resolveExecPath w.env w.bundledExec)]
    match w.launch with
    | .error e => (t1 ++ [Event.errLog ("Error generating PDF: " ++ e)], .exited 1)
    | .ok _ =>
      let t2 := t1 ++ [Event.log "Browser launched"]
      match w.newPage with
      | .error e => (t2 ++ [Event.errLog ("Error generating PDF: " ++ e)], .exited 1)
      | .ok _ =>
        let t3 := t2 ++ [Event.readFile htmlPath "utf8"]
        match w.readFile with
        | .error e => (t3 ++ [Event.errLog ("Error generating PDF: " ++ e)], .exited 1)
        | .ok _ =>
          let t4 := t3 ++ [Event.setContent "networkidle0"]
          match w.setContent with
          | .error e => (t4 ++ [Event.errLog ("Error generating PDF: " ++ e)], .exited 1)
          | .ok _ =>
            let t5 := t4 ++ [Event.log "HTML loaded", Event.waitFonts]
            match w.fontsReady with
            | .error e => (t5 ++ [Event.errLog ("Error generating PDF: " ++ e)], .exited 1)
            | .ok _ =>
              let t6 := t5 ++ [Event.log "Fonts loaded", Event.waitDelay 2000]
              match w.waitTimeout with
              | .error e => (t6 ++ [Event.errLog ("Error generating PDF: " ++ e)], .exited 1)
              | .ok _ =>
                let t7 := t6 ++ [Event.log "KaTeX rendered",
                                 Event.pdfCapture (pdfRenderOptions outputPath)]
                match w.pdfCapture with
                | .error e =>
                    (t7 ++ [Event.errLog ("Error generating PDF: " ++ e)], .exited 1)
                | .ok _ =>
                  let t8 := t7 ++ [Event.fileWrite outputPath,
                                   Event.log "PDF generated successfully!"]
                  match w.closeB with
                  | .error e => (t8, .rejected e)
                  | .ok _ => (t8 ++ [Event.browserClosed], .resolved)
  else
    (pre ++ [Event.errLog ("HTML file not found: " ++ htmlPath)], .exited 1)

/-- Usage line printed on wrong argument count. -/
def usageMsg : String := "Usage: node pdf_render.js <html_path> <output_path>"

/-- Shallow embedding of the script's top level: `process.argv.slice(2)` is
`args`; any count other than two prints usage and exits 1; otherwise
`generatePDF(htmlPath, outputPath).then(() => exit 0).catch(() => exit 1)`.
Returns the full event trace and the process exit code. -/
def runMain (w : World) (args : List String) : List Event × Nat :=
  match args with
  | [htmlPath, outputPath] =>
    match generatePDF w htmlPath outputPath with
    | (tr, .exited n) => (tr, n)
    | (tr, .resolved) => (tr ++ [Event.log "Done!"], 0)
    | (tr, .rejected e) => (tr ++ [Event.errLog ("Fatal error: " ++ e)], 1)
  | _ => ([Event.errLog usageMsg], 1)

/-- Whether an awaited call succeeded. -/
def exceptOk {α : Type} : Except String α → Bool
  | .ok _ => true
  | .error _ => false

/-- All steps of the pipeline, including the final `browser.close()`,
succeed for input `htmlPath` in world `w`. -/
def pipelineOk (w : World) (htmlPath : String) : Bool :=
  w.fileExists htmlPath && exceptOk w.launch && exceptOk w.newPage &&
    exceptOk w.readFile && exceptOk w.setContent && exceptOk w.fontsReady &&
    exceptOk w.waitTimeout && exceptOk w.pdfCapture && exceptOk w.closeB

/-- The whole invocation succeeds: exactly two arguments and the pipeline
succeeds on the first. -/
def mainSuccess (w : World) (args : List String) : Bool :=
  match args with
  | [htmlPath, _] => pipelineOk w htmlPath
  | _ => false

/-- The four sequential pipeline suspension points (load, fonts, delay,
capture), as recorded in the trace. -/
def isStepEvent : Event → Bool
  | .setContent _ => true
  | .waitFonts => true
  | .waitDelay _ => true
  | .pdfCapture _ => true
  | _ => false

/-- Projection of a trace onto the pipeline suspension points. -/
def stepFilter (tr : List Event) : List Event := tr.filter isStepEvent

/-- The full ordered sequence of pipeline suspension points for a given
output path. -/
def fullStepSeq (outputPath : String) : List Event :=
  [Event.setContent "networkidle0", Event.waitFonts, Event.waitDelay 2000,
   Event.pdfCapture (pdfRenderOptions outputPath)]

/-- Is this event a file write? -/
def isWriteEvent : Event → Bool
  | .fileWrite _ => true
  | _ => false

/-- The browser-automation calls of the pipeline: launch plus the four
suspension points. -/
def isPipelineEvent : Event → Bool
  | .launchCall _ => true
  | .setContent _ => true
  | .waitFonts => true
  | .waitDelay _ => true
  | .pdfCapture _ => true
  | _ => false

/-- Projection of a trace onto the browser-automation calls. -/
def pipelineFilter (tr : List Event) : List Event := tr.filter isPipelineEvent

/-- The full ordered sequence of browser-automation calls: launch, then
content load, then font wait, then the 2000 ms delay, then PDF capture. -/
def fullPipelineSeq (w : World) (outputPath : String) : List Event :=
  Event.launchCall (resolveExecPath w.env w.bundledExec) :: fullStepSeq outputPath

/-- How many of the five pipeline calls an invocation reaches in world `w`
with input `htmlPath` (a call that is made and then throws still counts). -/
def pipelineCount (w : World) (htmlPath : String) : Nat :=
  if w.fileExists htmlPath = false then 0
  else if exceptOk w.launch = false then 1
  else if exceptOk w.newPage = false then 1
  else if exceptOk w.readFile = false then 1
  else if exceptOk w.setContent = false then 2
  else if exceptOk w.fontsReady = false then 3
  else if exceptOk w.waitTimeout = false then 4
  else 5

/-! ## Concrete worlds used as witnesses and counterexamples -/

/-- A world in which every file exists and every awaited call succeeds. -/
def wOk : World :=
  { fileExists := fun _ => true
    env := none
    bundledExec := "/usr/bin/chromium"
    launch := .ok ()
    newPage := .ok ()
    readFile := .ok "<html></html>"
    setContent := .ok ()
    fontsReady := .ok ()
    waitTimeout := .ok ()
    pdfCapture := .ok ()
    closeB := .ok () }

/-- Like `wOk`, but `page.setContent` throws (the page load fails). -/
def wLoadFail : World := { wOk with setContent := .error "net::ERR_FAILED" }

/-- Like `wOk`, but `page.pdf` throws (e.g. the parent directory of the
output path does not exist). -/
def wPdfFail : World := { wOk with pdfCapture := .error "ENOENT" }

/-- Like `wOk`, but no file exists. -/
def wNoFile : World := { wOk with fileExists := fun _ => false }

/-- Like `wOk`, but the executable-path environment variable is set. -/
def wEnv : World := { wOk with env := some "/opt/chrome" }

/-! ## Theorems -/

/-- The process exit code of a two-argument invocation is 0 exactly when the
whole pipeline (including the final `browser.close()`) succeeds, and 1
otherwise. -/
theorem runMain_code (w : World) (h o : String) :
    (runMain w [h, o]).2 = if pipelineOk w h then 0 else 1 := by
  cases hf : w.fileExists h <;>
    cases hl : w.launch <;> cases hn : w.newPage <;> cases hr : w.readFile <;>
    cases hs : w.setContent <;> cases hfr : w.fontsReady <;> cases hw : w.waitTimeout <;>
    cases hp : w.pdfCapture <;> cases hc : w.closeB <;>
    simp [runMain, generatePDF, pipelineOk, exceptOk, hf, hl, hn, hr, hs, hfr, hw, hp, hc]

/-- C4: the exit code is exactly 0 on success and exactly 1 in every failure
case (missing input file, any launch/render error, argument-count mismatch);
no other exit code is produced. -/
theorem exit_code_zero_or_one (w : World) (args : List String) :
    (runMain w args).2 = if mainSuccess w args then 0 else 1 := by
  rcases args with _ | ⟨a, _ | ⟨b, _ | ⟨c, r⟩⟩⟩
  · simp [runMain, mainSuccess]
  · simp [runMain, mainSuccess]
  · simpa [mainSuccess] using runMain_code w a b
  · simp [runMain, mainSuccess]

/-- C2: when the HTML path does not exist, the renderer logs a
file-not-found message to standard error, exits 1, never calls
`puppeteer.launch`, and writes no file. -/
theorem missing_html_no_launch (w : World) (h o : String)
    (hf : w.fileExists h = false) :
    (runMain w [h, o]).2 = 1 ∧
    Event.errLog ("HTML file not found: " ++ h) ∈ (runMain w [h, o]).1 ∧
    (∀ p, Event.launchCall p ∉ (runMain w [h, o]).1) ∧
    (∀ p, Event.fileWrite p ∉ (runMain w [h, o]).1) := by
  simp [runMain, generatePDF, preamble, hf]

/-- C2 witness: concrete instance with every path missing. -/
theorem missing_html_no_launch_witness :
    (runMain wNoFile ["a.html", "out.pdf"]).2 = 1 ∧
    Event.errLog ("HTML file not found: " ++ "a.html") ∈
      (runMain wNoFile ["a.html", "out.pdf"]).1 ∧
    (∀ p, Event.launchCall p ∉ (runMain wNoFile ["a.html", "out.pdf"]).1) ∧
    (∀ p, Event.fileWrite p ∉ (runMain wNoFile ["a.html", "out.pdf"]).1) :=
  missing_html_no_launch wNoFile "a.html" "out.pdf" rfl

/-- C3: any argument count other than two prints the usage line to standard
error and exits 1 without calling `puppeteer.launch`; with exactly two
arguments the process runs the rendering pipeline on the first argument as
`htmlPath` and the second as `outputPath`. -/
theorem arg_count_dispatch (w : World) (args : List String) :
    (args.length ≠ 2 →
      (runMain w args).2 = 1 ∧
      Event.errLog usageMsg ∈ (runMain w args).1 ∧
      (∀ p, Event.launchCall p ∉ (runMain w args).1)) ∧
    (∀ h o, args = [h, o] →
      ∃ rest, (runMain w args).1 = (generatePDF w h o).1 ++ rest) := by
  rcases args with _ | ⟨a, _ | ⟨b, _ | ⟨c, r⟩⟩⟩
  · exact ⟨fun _ => by simp [runMain], by simp⟩
  · exact ⟨fun _ => by simp [runMain], by simp⟩
  · refine ⟨fun hlen => absurd rfl hlen, ?_⟩
    intro h o heq
    obtain ⟨rfl, rfl⟩ : a = h ∧ b = o := by simpa using heq
    rcases hg : generatePDF w a b with ⟨tr, n | _ | e⟩
    · exact ⟨[], by simp [runMain, hg]⟩
    · exact ⟨[Event.log "Done!"], by simp [runMain, hg]⟩
    · exact ⟨[Event.errLog ("Fatal error: " ++ e)], by simp [runMain, hg]⟩
  · exact ⟨fun _ => by simp [runMain], by simp⟩

/-- C3 witness: a one-argument invocation prints usage and exits 1. -/
theorem arg_count_dispatch_witness :
    (runMain wOk ["only.html"]).2 = 1 ∧
    Event.errLog usageMsg ∈ (runMain wOk ["only.html"]).1 := by
  have h := (arg_count_dispatch wOk ["only.html"]).1 (by decide)
  exact ⟨h.1, h.2.1⟩

/-- C1 (refuted by the code): with a successfully launched browser and a page
load that throws, the process exits 1 without ever closing the browser:
`process.exit(1)` inside the `catch` block terminates the Node process
immediately, so the `finally` block containing `browser.close()` never runs.
The claim that the browser is released on every exit path after a successful
launch is therefore false on every post-launch error path. -/
theorem browser_not_closed_on_error :
    wLoadFail.launch = Except.ok () ∧
    (runMain wLoadFail ["a.html", "out.pdf"]).2 = 1 ∧
    Event.launchCall "/usr/bin/chromium" ∈ (runMain wLoadFail ["a.html", "out.pdf"]).1 ∧
    Event.log "Browser launched" ∈ (runMain wLoadFail ["a.html", "out.pdf"]).1 ∧
    Event.browserClosed ∉ (runMain wLoadFail ["a.html", "out.pdf"]).1 :=
  ⟨rfl, by decide, by decide, by decide, by decide⟩

/-- C5: every `page.pdf` call uses exactly the fixed options: path
`outputPath`, format A4, printed backgrounds enabled, margins 10mm top /
15mm bottom / 10mm left / 10mm right. -/
theorem pdf_options_fixed (w : World) (h o : String) (opts : PdfOptions)
    (hm : Event.pdfCapture opts ∈ (generatePDF w h o).1) :
    opts = pdfRenderOptions o ∧ opts.path = o ∧ opts.format = "A4" ∧
    opts.printBackground = true ∧
    opts.margin = { top := "10mm", bottom := "15mm", left := "10mm",
                    right := "10mm" } := by
  have key : opts = pdfRenderOptions o := by
    cases hf : w.fileExists h <;>
      cases hl : w.launch <;> cases hn : w.newPage <;> cases hr : w.readFile <;>
      cases hs : w.setContent <;> cases hfr : w.fontsReady <;>
      cases hw : w.waitTimeout <;> cases hp : w.pdfCapture <;>
      cases hc : w.closeB <;>
      simp [generatePDF, preamble, hf, hl, hn, hr, hs, hfr, hw, hp, hc] at hm <;>
      exact hm
  subst key
  exact ⟨rfl, rfl, rfl, rfl, rfl⟩

/-- C5 witness: a successful invocation makes a `page.pdf` call and the
recorded options are the fixed ones. -/
theorem pdf_options_fixed_witness :
    (pdfRenderOptions "out.pdf").path = "out.pdf" ∧
    (pdfRenderOptions "out.pdf").format = "A4" ∧
    (pdfRenderOptions "out.pdf").printBackground = true := by
  have h := pdf_options_fixed wOk "a.html" "out.pdf" (pdfRenderOptions "out.pdf")
    (by decide)
  exact ⟨h.2.1, h.2.2.1, h.2.2.2.1⟩

/-- C6: in every invocation, the browser-automation calls recorded in the
trace form an initial segment of the fixed sequence launch → content load
(network idle) → font wait → 2000 ms delay → PDF capture; the trace is
sequential, so each call (and its awaited completion) precedes the next,
and no call is skipped or reordered. -/
theorem pipeline_sequential (w : World) (h o : String) :
    pipelineFilter (generatePDF w h o).1 =
      (fullPipelineSeq w o).take (pipelineCount w h) := by
  cases hf : w.fileExists h <;>
    cases hl : w.launch <;> cases hn : w.newPage <;> cases hr : w.readFile <;>
    cases hs : w.setContent <;> cases hfr : w.fontsReady <;>
    cases hw : w.waitTimeout <;> cases hp : w.pdfCapture <;>
    cases hc : w.closeB <;>
    simp [generatePDF, preamble, pipelineFilter, isPipelineEvent,
      fullPipelineSeq, fullStepSeq, pipelineCount, exceptOk,
      hf, hl, hn, hr, hs, hfr, hw, hp, hc]

/-- C7: the executable path passed to `puppeteer.launch` is always
`resolveExecPath w.env w.bundledExec`, which is the environment variable's
value when it is set and non-empty, and the bundled executable path when the
variable is unset or empty. -/
theorem exec_path_resolution (w : World) (h o p : String)
    (hm : Event.launchCall p ∈ (generatePDF w h o).1) :
    p = resolveExecPath w.env w.bundledExec ∧
    (∀ s b, s ≠ "" → resolveExecPath (some s) b = s) ∧
    (∀ b, resolveExecPath none b = b) ∧
    (∀ b, resolveExecPath (some "") b = b) := by
  refine ⟨?_, ?_, ?_, ?_⟩
  · cases hf : w.fileExists h <;>
      cases hl : w.launch <;> cases hn : w.newPage <;> cases hr : w.readFile <;>
      cases hs : w.setContent <;> cases hfr : w.fontsReady <;>
      cases hw : w.waitTimeout <;> cases hp : w.pdfCapture <;>
      cases hc : w.closeB <;>
      simp [generatePDF, preamble, hf, hl, hn, hr, hs, hfr, hw, hp, hc] at hm <;>
      exact hm
  · intro s b hs
    simp [resolveExecPath, hs]
  · intro b
    rfl
  · intro b
    simp [resolveExecPath]

/-- C7 witness: with the environment variable set to a non-empty path, the
launch call uses exactly that path. -/
theorem exec_path_resolution_witness :
    resolveExecPath (some "/opt/chrome") "/usr/bin/chromium" = "/opt/chrome" :=
  ((exec_path_resolution wEnv "a.html" "out.pdf" "/opt/chrome"
      (by decide)).2.1) "/opt/chrome" "/usr/bin/chromium" (by decide)

/-- Every file write recorded during a two-argument invocation targets the
output path (the second argument). -/
theorem write_targets_output (w : World) (h o p : String)
    (hm : Event.fileWrite p ∈ (runMain w [h, o]).1) : p = o := by
  cases hf : w.fileExists h <;>
    cases hl : w.launch <;> cases hn : w.newPage <;> cases hr : w.readFile <;>
    cases hs : w.setContent <;> cases hfr : w.fontsReady <;>
    cases hw : w.waitTimeout <;> cases hp : w.pdfCapture <;>
    cases hc : w.closeB <;>
    simp [runMain, generatePDF, preamble, hf, hl, hn, hr, hs, hfr, hw, hp, hc]
      at hm <;>
    exact hm

/-- Every file read recorded during a two-argument invocation targets the
input HTML path, with UTF-8 encoding. -/
theorem read_targets_input (w : World) (h o p enc : String)
    (hm : Event.readFile p enc ∈ (runMain w [h, o]).1) :
    p = h ∧ enc = "utf8" := by
  cases hf : w.fileExists h <;>
    cases hl : w.launch <;> cases hn : w.newPage <;> cases hr : w.readFile <;>
    cases hs : w.setContent <;> cases hfr : w.fontsReady <;>
    cases hw : w.waitTimeout <;> cases hp : w.pdfCapture <;>
    cases hc : w.closeB <;>
    simp [runMain, generatePDF, preamble, hf, hl, hn, hr, hs, hfr, hw, hp, hc]
      at hm <;>
    exact hm

/-- A successful invocation records exactly one file write, at the output
path. -/
theorem success_single_write (w : World) (h o : String)
    (h0 : (runMain w [h, o]).2 = 0) :
    (runMain w [h, o]).1.filter isWriteEvent = [Event.fileWrite o] := by
  cases hf : w.fileExists h <;>
    cases hl : w.launch <;> cases hn : w.newPage <;> cases hr : w.readFile <;>
    cases hs : w.setContent <;> cases hfr : w.fontsReady <;>
    cases hw : w.waitTimeout <;> cases hp : w.pdfCapture <;>
    cases hc : w.closeB <;>
    simp [runMain, generatePDF, preamble, isWriteEvent,
      hf, hl, hn, hr, hs, hfr, hw, hp, hc] at h0 ⊢

/-- C8 counterexample: when the caller passes the same path as both input and
output, a successful invocation overwrites the input HTML file with the PDF,
so "never mutates the file at htmlPath" fails as universally stated. -/
theorem input_overwritten_when_paths_equal :
    (runMain wOk ["a.html", "a.html"]).2 = 0 ∧
    Event.fileWrite "a.html" ∈ (runMain wOk ["a.html", "a.html"]).1 :=
  ⟨by decide, by decide⟩

/-- C8 (amended): whenever the output path differs from the input path, the
input file is never written (only read, as UTF-8), and a successful
invocation writes exactly one file, at the output path. -/
theorem input_read_only (w : World) (h o : String) (hne : h ≠ o) :
    Event.fileWrite h ∉ (runMain w [h, o]).1 ∧
    (∀ p, Event.fileWrite p ∈ (runMain w [h, o]).1 → p = o) ∧
    (∀ p enc, Event.readFile p enc ∈ (runMain w [h, o]).1 →
      p = h ∧ enc = "utf8") ∧
    ((runMain w [h, o]).2 = 0 →
      (runMain w [h, o]).1.filter isWriteEvent = [Event.fileWrite o]) := by
  refine ⟨?_, fun p hp => write_targets_output w h o p hp,
    fun p enc hpe => read_targets_input w h o p enc hpe,
    fun h0 => success_single_write w h o h0⟩
  intro hmem
  exact hne (write_targets_output w h o h hmem)

/-- C8 witness: a successful invocation with distinct paths writes exactly
one file, at the output path. -/
theorem input_read_only_witness :
    (runMain wOk ["a.html", "out.pdf"]).1.filter isWriteEvent =
      [Event.fileWrite "out.pdf"] :=
  (input_read_only wOk "a.html" "out.pdf" (by decide)).2.2.2 (by decide)

/-- C9: the process exits 0 only after the browser has been closed — on the
success path the trace ends with `browserClosed` followed by the then-handler
log, so `browser.close()` completes before `generatePDF` resolves and
`process.exit(0)` runs. -/
theorem closed_before_success_exit (w : World) (args : List String)
    (h0 : (runMain w args).2 = 0) :
    Event.browserClosed ∈ (runMain w args).1 ∧
    (runMain w args).1.reverse.take 2 =
      [Event.log "Done!", Event.browserClosed] := by
  rcases args with _ | ⟨a, _ | ⟨b, _ | ⟨c, r⟩⟩⟩
  · simp [runMain] at h0
  · simp [runMain] at h0
  · cases hf : w.fileExists a <;>
      cases hl : w.launch <;> cases hn : w.newPage <;> cases hr : w.readFile <;>
      cases hs : w.setContent <;> cases hfr : w.fontsReady <;>
      cases hw : w.waitTimeout <;> cases hp : w.pdfCapture <;>
      cases hc : w.closeB <;>
      simp [runMain, generatePDF, preamble, hf, hl, hn, hr, hs, hfr, hw, hp, hc]
        at h0 ⊢
  · simp [runMain] at h0

/-- C9 witness: the success path closes the browser before exiting 0. -/
theorem closed_before_success_exit_witness :
    Event.browserClosed ∈ (runMain wOk ["a.html", "out.pdf"]).1 :=
  (closed_before_success_exit wOk ["a.html", "out.pdf"] (by decide)).1

/-- C10: the output path is not validated up front — when every step up to
and including the waits succeeds and only `page.pdf` throws (for instance
because the output directory does not exist), the invocation still performs
launch, content load, font wait and the 2000 ms delay, reaches the capture
call, logs the error, writes no file, and exits 1. -/
theorem output_error_at_capture (w : World) (h o e c : String)
    (hf : w.fileExists h = true) (hl : w.launch = .ok ())
    (hn : w.newPage = .ok ()) (hr : w.readFile = .ok c)
    (hs : w.setContent = .ok ()) (hfr : w.fontsReady = .ok ())
    (hw : w.waitTimeout = .ok ()) (hp : w.pdfCapture = .error e) :
    (runMain w [h, o]).2 = 1 ∧
    pipelineFilter (runMain w [h, o]).1 = fullPipelineSeq w o ∧
    Event.errLog ("Error generating PDF: " ++ e) ∈ (runMain w [h, o]).1 ∧
    (∀ p, Event.fileWrite p ∉ (runMain w [h, o]).1) := by
  simp [runMain, generatePDF, preamble, pipelineFilter, isPipelineEvent,
    fullPipelineSeq, fullStepSeq, hf, hl, hn, hr, hs, hfr, hw, hp]

/-- C10 witness: concrete failing capture (output directory missing). -/
theorem output_error_at_capture_witness :
    (runMain wPdfFail ["a.html", "out.pdf"]).2 = 1 ∧
    pipelineFilter (runMain wPdfFail ["a.html", "out.pdf"]).1 =
      fullPipelineSeq wPdfFail "out.pdf" := by
  have h := output_error_at_capture wPdfFail "a.html" "out.pdf" "ENOENT"
    "<html></html>" rfl rfl rfl rfl rfl rfl rfl rfl
  exact ⟨h.1, h.2.1⟩

end PdfRender


